import Mathlib

/-!
Verification of the per-frame simulation core of the Solar-Simulator
repository (`src/simulationUpdate.js`), shallowly embedded in Lean 4.

JavaScript numbers are modelled by exact rationals (`ℚ`) where the code
performs only field arithmetic and equality tests, and by real numbers
(`ℝ`) where the code calls trigonometric functions or square roots.
`undefined` and `NaN`, which matter for the optional-chaining code in
`objectRadius`, are modelled explicitly by the `JSVal` type.  Stateful
functions that mutate their arguments in place are modelled by functions
returning the updated value.
-/

/-- A 3-component vector, mirroring `THREE.Vector3` componentwise. -/
structure V3 (α : Type) where
  x : α
  y : α
  z : α
deriving DecidableEq

/-- JavaScript value as it flows through `objectRadius`: either
`undefined`, `NaN`, or an actual (finite) number. -/
inductive JSVal (α : Type) : Type where
  | undef : JSVal α
  | nan : JSVal α
  | num : α → JSVal α
deriving DecidableEq

/-- JavaScript nullish-coalescing operator `a ?? b`: yields `b` only when
`a` is `undefined` (or `null`, which does not arise here).  `NaN` is a
number, not nullish, so `NaN ?? b` is `NaN`. -/
def jsCoalesce {α : Type} (a b : JSVal α) : JSVal α :=
  match a with
  | .undef => b
  | v => v

/-- JavaScript multiplication on possibly-undefined operands: any operand
that is `undefined` or `NaN` makes the product `NaN`. -/
def jsMul {α : Type} [Mul α] (a b : JSVal α) : JSVal α :=
  match a, b with
  | .num p, .num q => .num (p * q)
  | _, _ => .nan

/-- JavaScript strict comparison `a > b`: false whenever either side is
`NaN` or `undefined`. -/
def jsGT {α : Type} [LT α] (a b : JSVal α) : Prop :=
  match a, b with
  | .num p, .num q => q < p
  | _, _ => False

/-- The fields of a `THREE.Mesh` that `objectRadius` reads, flattened:
`boundingRadius` is the result of `obj.geometry?.boundingSphere?.radius`
(`none` when the geometry or its bounding sphere is missing), `scaleX` is
`obj.scale?.x` (`none` when the mesh has no scale vector). -/
structure MeshObj (α : Type) where
  boundingRadius : Option α
  scaleX : Option α
deriving DecidableEq

/-- Embeds `objectRadius` from `src/simulationUpdate.js`:
`obj?.geometry?.boundingSphere?.radius ?? (obj?.scale?.x * BASE_PLANET_RADIUS) ?? 1`.
The constant `BASE_PLANET_RADIUS` lives in `constants.js` and is passed
here as the parameter `base`.  `obj = none` models calling the helper on
`undefined`/`null`. -/
def objectRadius {α : Type} [Mul α] [One α] (obj : Option (MeshObj α)) (base : α) :
    JSVal α :=
  let authored : JSVal α :=
    match obj with
    | none => .undef
    | some m =>
      match m.boundingRadius with
      | none => .undef
      | some r => .num r
  let scaled : JSVal α :=
    jsMul
      (match obj with
       | none => .undef
       | some m =>
         match m.scaleX with
         | none => .undef
         | some s => .num s)
      (.num base)
  jsCoalesce (jsCoalesce authored scaled) (.num 1)

/-- A celestial body as consumed by `updateCelestials`: `pivotRotY` is
`body.pivot.rotation.y` (`none` when `body.pivot` is null/absent),
`speed` is `body.speed` (`none` when it is not a number), `meshRotY` is
`body.mesh.rotation.y`, `axialSpeed` is `body.axialSpeed`, and `moons` is
the `body.moons` array (an absent array is modelled as `[]`, which the
code treats identically). -/
inductive CBody : Type where
  | mk : Option ℚ → Option ℚ → Option ℚ → Option ℚ → List CBody → CBody

/-- Orbital pivot angle `body.pivot.rotation.y` of a `CBody`. -/
def CBody.pivotRotY : CBody → Option ℚ
  | .mk p _ _ _ _ => p

/-- Orbital angular speed `body.speed` of a `CBody`. -/
def CBody.speed : CBody → Option ℚ
  | .mk _ s _ _ _ => s

/-- Axial mesh angle `body.mesh.rotation.y` of a `CBody`. -/
def CBody.meshRotY : CBody → Option ℚ
  | .mk _ _ m _ _ => m

/-- Axial angular speed `body.axialSpeed` of a `CBody`. -/
def CBody.axialSpeed : CBody → Option ℚ
  | .mk _ _ _ a _ => a

/-- Moon list `body.moons` of a `CBody`. -/
def CBody.moons : CBody → List CBody
  | .mk _ _ _ _ ms => ms

/-- Embeds `updateCelestials(celestialBodies, delta, isPaused)` from
`src/simulationUpdate.js`.  If paused it returns immediately; otherwise
for each body it advances the orbital pivot angle (when the pivot exists
and the speed is a number), the axial mesh angle (when the mesh exists
and the axial speed is a number), and does the same for each entry of the
body's `moons` array.  The loop body never recurses into a moon's own
`moons` field. -/
def updateCelestials (celestialBodies : List CBody) (delta : ℚ) (isPaused : Bool) :
    List CBody :=
  if isPaused then celestialBodies
  else
    celestialBodies.map (fun body =>
      CBody.mk
        (match body.pivotRotY, body.speed with
         | some r, some s => some (r + s * delta)
         | _, _ => body.pivotRotY)
        body.speed
        (match body.meshRotY, body.axialSpeed with
         | some r, some s => some (r + s * delta)
         | _, _ => body.meshRotY)
        body.axialSpeed
        (body.moons.map (fun moon =>
          CBody.mk
            (match moon.pivotRotY, moon.speed with
             | some r, some s => some (r + s * delta)
             | _, _ => moon.pivotRotY)
            moon.speed
            (match moon.meshRotY, moon.axialSpeed with
             | some r, some s => some (r + s * delta)
             | _, _ => moon.meshRotY)
            moon.axialSpeed
            moon.moons)))

/-- Orbital-angle update applied by `updateCelestials` to a single body:
`pivot.rotation.y += speed * delta` guarded by the existence checks. -/
def orbUpdate (delta : ℚ) (b : CBody) : Option ℚ :=
  match b.pivotRotY, b.speed with
  | some r, some s => some (r + s * delta)
  | _, _ => b.pivotRotY

/-- Axial-angle update applied by `updateCelestials` to a single body:
`mesh.rotation.y += axialSpeed * delta` guarded by the existence checks. -/
def axUpdate (delta : ℚ) (b : CBody) : Option ℚ :=
  match b.meshRotY, b.axialSpeed with
  | some r, some s => some (r + s * delta)
  | _, _ => b.meshRotY

/-- Grand-moon used in the counterexample for claim C8: a body with
orbital angle 0, orbital speed 1, axial angle 0, axial speed 1, no moons. -/
def cexGrandMoon : CBody := .mk (some 0) (some 1) (some 0) (some 1) []

/-- Moon carrying `cexGrandMoon` as its own moon. -/
def cexMoon : CBody := .mk (some 0) (some 1) (some 0) (some 1) [cexGrandMoon]

/-- Top-level body whose moon itself has a moon, for claim C8. -/
def cexPlanet : CBody := .mk (some 0) (some 1) (some 0) (some 1) [cexMoon]

/-- Embeds `updateTrajectoryLine(spacecraft, trajectoryLine, trajectoryPoints, maxPoints)`
from `src/simulationUpdate.js`, restricted to its effect on the points
array.  `spacecraftPos = none` models an absent spacecraft (the guard
returns immediately; the guards on the line and the array behave the
same way).  When the history is empty or its newest (front) entry
differs from the current position, the position is prepended and the
list is popped from the back while longer than `maxPoints` — i.e. it is
truncated to its first `maxPoints` entries. -/
def updateTrajectoryLine (spacecraftPos : Option (V3 ℚ)) (trajectoryPoints : List (V3 ℚ))
    (maxPoints : ℕ) : List (V3 ℚ) :=
  match spacecraftPos with
  | none => trajectoryPoints
  | some currentPosition =>
    if trajectoryPoints.head? = some currentPosition then trajectoryPoints
    else (currentPosition :: trajectoryPoints).take maxPoints

open scoped Classical

/-- Componentwise vector addition, `THREE.Vector3.add`. -/
def vadd (a b : V3 ℝ) : V3 ℝ := ⟨a.x + b.x, a.y + b.y, a.z + b.z⟩

/-- Componentwise vector subtraction, `THREE.Vector3.subVectors`. -/
def vsub (a b : V3 ℝ) : V3 ℝ := ⟨a.x - b.x, a.y - b.y, a.z - b.z⟩

/-- Scalar multiple, `THREE.Vector3.multiplyScalar`. -/
def vsmul (c : ℝ) (v : V3 ℝ) : V3 ℝ := ⟨c * v.x, c * v.y, c * v.z⟩

/-- Dot product, `THREE.Vector3.dot`. -/
def vdot (a b : V3 ℝ) : ℝ := a.x * b.x + a.y * b.y + a.z * b.z

/-- Cross product, `THREE.Vector3.crossVectors`. -/
def vcross (a b : V3 ℝ) : V3 ℝ :=
  ⟨a.y * b.z - a.z * b.y, a.z * b.x - a.x * b.z, a.x * b.y - a.y * b.x⟩

/-- Squared length, `THREE.Vector3.lengthSq`. -/
def lengthSq (v : V3 ℝ) : ℝ := v.x * v.x + v.y * v.y + v.z * v.z

/-- Length, `THREE.Vector3.length`. -/
noncomputable def norm3 (v : V3 ℝ) : ℝ := Real.sqrt (lengthSq v)

/-- Distance between two points, `THREE.Vector3.distanceTo`. -/
noncomputable def dist3 (a b : V3 ℝ) : ℝ := norm3 (vsub a b)

/-- `THREE.Vector3.normalize`, which divides by `length() || 1`, so the
zero vector is left unchanged instead of producing a division by zero. -/
noncomputable def normalize3 (v : V3 ℝ) : V3 ℝ :=
  vsmul (1 / (if norm3 v = 0 then 1 else norm3 v)) v

/-- A quaternion with the `THREE.Quaternion` component layout. -/
structure Quat where
  w : ℝ
  x : ℝ
  y : ℝ
  z : ℝ

/-- Hamilton product, transcribed from `THREE.Quaternion.multiplyQuaternions`. -/
def qmul (a b : Quat) : Quat :=
  ⟨a.w * b.w - a.x * b.x - a.y * b.y - a.z * b.z,
   a.x * b.w + a.w * b.x + a.y * b.z - a.z * b.y,
   a.y * b.w + a.w * b.y + a.z * b.x - a.x * b.z,
   a.z * b.w + a.w * b.z + a.x * b.y - a.y * b.x⟩

/-- `THREE.Quaternion.setFromAxisAngle` for the axis `(0, 1, 0)`: the
quaternion of a rotation by `angle` about the local Y axis, as built by
`Object3D.rotateY`. -/
noncomputable def qRotY (angle : ℝ) : Quat :=
  ⟨Real.cos (angle / 2), 0, Real.sin (angle / 2), 0⟩

/-- `THREE.Vector3.applyQuaternion`, transcribed from the three.js
source: with `t = 2 * (q.xyz × v)` the result is `v + q.w * t + q.xyz × t`. -/
def applyQuaternion (q : Quat) (v : V3 ℝ) : V3 ℝ :=
  let qv : V3 ℝ := ⟨q.x, q.y, q.z⟩
  let t := vsmul 2 (vcross qv v)
  vadd v (vadd (vsmul q.w t) (vcross qv t))

/-- Rotation of a vector by `θ` about the world Y axis, transcribed from
the three.js rotation matrix `Matrix4.makeRotationY(θ)` (rows
`(cos θ, 0, sin θ)`, `(0, 1, 0)`, `(-sin θ, 0, cos θ)`). -/
noncomputable def rotateY (θ : ℝ) (v : V3 ℝ) : V3 ℝ :=
  ⟨v.x * Real.cos θ + v.z * Real.sin θ, v.y,
   -(v.x * Real.sin θ) + v.z * Real.cos θ⟩

/-- The spacecraft state record built by `createSpacecraft` in
`src/simulationObjects.js`: mesh position and orientation quaternion,
velocity, and the kinematic constants. -/
structure Spacecraft where
  position : V3 ℝ
  quat : Quat
  velocity : V3 ℝ
  turnSpeed : ℝ
  thrustPower : ℝ
  drag : ℝ
  maxSpeed : ℝ

/-- The shared control-input record `{thrust, turnLeft, turnRight}`. -/
structure InputState where
  thrust : Bool
  turnLeft : Bool
  turnRight : Bool
deriving DecidableEq

/-- Turn sub-step of `updateSpacecraft`: accumulate `turnAmount` from the
input flags and rotate the mesh about its local Y axis
(`mesh.rotateY(turnAmount)` right-multiplies the orientation quaternion). -/
noncomputable def turnStep (input : InputState) (delta : ℝ) (s : Spacecraft) : Spacecraft :=
  let turnAmount :=
    (if input.turnLeft then s.turnSpeed * delta else 0) +
      (if input.turnRight then -(s.turnSpeed * delta) else 0)
  { s with quat := qmul s.quat (qRotY turnAmount) }

/-- Thrust sub-step of `updateSpacecraft`: when thrusting, add
`forward * thrustPower * delta` to the velocity, where `forward` is the
local `(0, 0, -1)` direction carried to world space by the orientation. -/
noncomputable def thrustStep (input : InputState) (delta : ℝ) (s : Spacecraft) : Spacecraft :=
  { s with
    velocity :=
      if input.thrust then
        vadd s.velocity
          (vsmul (s.thrustPower * delta) (applyQuaternion s.quat ⟨0, 0, -1⟩))
      else s.velocity }

/-- Drag sub-step of `updateSpacecraft`: `velocity.multiplyScalar(drag)`. -/
noncomputable def dragStep (s : Spacecraft) : Spacecraft :=
  { s with velocity := vsmul s.drag s.velocity }

/-- Speed-limit sub-step of `updateSpacecraft`: when
`velocity.lengthSq() > maxSpeed * maxSpeed`, rescale the velocity to
length `maxSpeed`. -/
noncomputable def clampStep (s : Spacecraft) : Spacecraft :=
  { s with
    velocity :=
      if lengthSq s.velocity > s.maxSpeed * s.maxSpeed then
        vsmul s.maxSpeed (normalize3 s.velocity)
      else s.velocity }

/-- Integration sub-step of `updateSpacecraft`:
`position += velocity * delta`. -/
noncomputable def integrateStep (delta : ℝ) (s : Spacecraft) : Spacecraft :=
  { s with position := vadd s.position (vsmul delta s.velocity) }

/-- Embeds `updateSpacecraft(spacecraft, inputState, delta)` from
`src/simulationUpdate.js`, written out statement by statement in the
source order (turning, thrust, drag and speed limit, position update).
The `!spacecraft` guard only returns early, so the function is modelled
on present spacecraft records. -/
noncomputable def updateSpacecraft (spacecraft : Spacecraft) (inputState : InputState)
    (delta : ℝ) : Spacecraft :=
  let turnAmount :=
    (if inputState.turnLeft then spacecraft.turnSpeed * delta else 0) +
      (if inputState.turnRight then -(spacecraft.turnSpeed * delta) else 0)
  let quat1 := qmul spacecraft.quat (qRotY turnAmount)
  let velocity1 :=
    if inputState.thrust then
      vadd spacecraft.velocity
        (vsmul (spacecraft.thrustPower * delta) (applyQuaternion quat1 ⟨0, 0, -1⟩))
    else spacecraft.velocity
  let velocity2 := vsmul spacecraft.drag velocity1
  let velocity3 :=
    if lengthSq velocity2 > spacecraft.maxSpeed * spacecraft.maxSpeed then
      vsmul spacecraft.maxSpeed (normalize3 velocity2)
    else velocity2
  { spacecraft with
    quat := quat1
    velocity := velocity3
    position := vadd spacecraft.position (vsmul delta velocity3) }

/-- `THREE.MathUtils.degToRad`. -/
noncomputable def degToRad (degrees : ℝ) : ℝ := degrees * (Real.pi / 180)

/-- `THREE.Vector3.angleTo`, transcribed from the three.js source: the
arccosine of the clamped normalized dot product, an unsigned angle in
`[0, π]`.  (`Real.arccos` already clamps the way `MathUtils.clamp` does;
the clamp is kept explicit to mirror the source.) -/
noncomputable def angleTo (a b : V3 ℝ) : ℝ :=
  Real.arccos
    (max (-1) (min (vdot a b / Real.sqrt (lengthSq a * lengthSq b)) 1))

/-- The spacecraft fields read by `updateAiPilot`: the mesh position and
the orientation quaternion. -/
structure AiCraft where
  pos : V3 ℝ
  quat : Quat

/-- The target mesh fields read by `updateAiPilot`: its world position
(`getWorldPosition`) and the fields used by `objectRadius`. -/
structure AiTarget where
  worldPos : V3 ℝ
  mesh : MeshObj ℝ

/-- Embeds `updateAiPilot(spacecraft, targetObject, inputState, delta, isAiActive)`
from `src/simulationUpdate.js`.  The function overwrites and returns the
control-input record.  When inactive, or the spacecraft or target is
absent, all three flags are forced off.  In the steering path the source
stores the target's world position in the shared scratch vector
`_updateTempVec3` (`getWorldPosition(v)` writes into and returns `v`, so
`targetPos` is an alias of that scratch vector).  `targetDirection` and
`angle` read it before line 120, but `crossVectors` then overwrites the
same scratch vector in place with `shipForward × targetDirection`, so
the later `shipPos.distanceTo(targetPos)` on line 126 measures the
distance to the cross product, not to the target; `distanceToTarget`
below reproduces that aliasing.  With `angle` the bearing angle and the
turn-direction sign the sign of `(forward × targetDirection) · up`, an
angle above `degToRad 5` asserts exactly one turn flag; otherwise thrust
is asserted exactly when `distanceToTarget` exceeds
`objectRadius(targetObject) * 2.0`.  `delta` is accepted and unused, as
in the source; `base` stands for `BASE_PLANET_RADIUS` inside
`objectRadius`. -/
noncomputable def updateAiPilot (spacecraft : Option AiCraft) (targetObject : Option AiTarget)
    (_inputState : InputState) (_delta : ℝ) (isAiActive : Bool) (base : ℝ) : InputState :=
  match isAiActive, spacecraft, targetObject with
  | true, some c, some t =>
    let shipPos := c.pos
    let targetPos := t.worldPos
    let targetDirection := normalize3 (vsub targetPos shipPos)
    let shipForward := applyQuaternion c.quat ⟨0, 0, -1⟩
    let angle := angleTo shipForward targetDirection
    let shipUp := applyQuaternion c.quat ⟨0, 1, 0⟩
    let cross := vcross shipForward targetDirection
    let turnDirectionSign := Real.sign (vdot cross shipUp)
    let angleThreshold := degToRad 5
    let distanceToTarget := dist3 shipPos cross
    if angle > angleThreshold then
      if turnDirectionSign > 0 then ⟨false, true, false⟩
      else ⟨false, false, true⟩
    else
      ⟨if jsGT (.num distanceToTarget) (jsMul (objectRadius (some t.mesh) base) (.num 2))
        then true else false,
       false, false⟩
  | _, _, _ => ⟨false, false, false⟩

/-- The pivot fields read by `calculateFuturePosition`: its Y rotation
(the current orbital angle) and its world position
(`pivot.getWorldPosition`). -/
structure PivotNode where
  rotY : ℝ
  world : V3 ℝ

/-- The mesh field read by `calculateFuturePosition`: the mesh's local X
position, which is the orbital distance recorded at creation. -/
structure MeshNode where
  posX : ℝ

/-- A celestial body as consumed by `calculateFuturePosition`; `none`
fields model the guarded absent/invalid cases. -/
structure OrbitBody where
  pivot : Option PivotNode
  speed : Option ℝ
  mesh : Option MeshNode

/-- Embeds `calculateFuturePosition(body, timeAhead)` from
`src/simulationUpdate.js`.  On invalid input it warns and returns the
origin; otherwise it returns
`pivotWorld + (cos(futureAngle) * distance, 0, sin(futureAngle) * distance)`
with `futureAngle = pivot.rotation.y + speed * timeAhead` and
`distance = mesh.position.x`. -/
noncomputable def calculateFuturePosition (body : Option OrbitBody) (timeAhead : ℝ) :
    V3 ℝ :=
  match body with
  | none => ⟨0, 0, 0⟩
  | some b =>
    match b.pivot, b.speed, b.mesh with
    | some p, some s, some m =>
      let futureAngle := p.rotY + s * timeAhead
      let distance := m.posX
      ⟨p.world.x + Real.cos futureAngle * distance,
       p.world.y,
       p.world.z + Real.sin futureAngle * distance⟩
    | _, _, _ => ⟨0, 0, 0⟩

/-- Derived world position of a body's mesh: the mesh sits at local
position `(distance, 0, 0)` under the orbit pivot, so its world position
is the pivot's world position plus the mesh offset carried through the
pivot's Y rotation (three.js scene-graph composition for a pivot that is
a direct child of the scene). -/
noncomputable def meshWorldPosition (p : PivotNode) (m : MeshNode) : V3 ℝ :=
  vadd p.world (rotateY p.rotY ⟨m.posX, 0, 0⟩)

/-- Concrete body for the claim C1 counterexample: a first-tier body with
pivot at the origin, orbital angle `π/2`, orbital speed 0, and orbital
distance 10. -/
noncomputable def cexOrbitBody : OrbitBody :=
  ⟨some ⟨Real.pi / 2, ⟨0, 0, 0⟩⟩, some 0, some ⟨10⟩⟩

/-- Spacecraft of the claim C6 scenario: at the origin and at rest,
identity orientation (forward along `-Z`), with the constants from
`createSpacecraft` (`turnSpeed 2.5`, `thrustPower 7.0`, `drag 0.98`,
`maxSpeed 30`). -/
noncomputable def craftScenario : Spacecraft :=
  ⟨⟨0, 0, 0⟩, ⟨1, 0, 0, 0⟩, ⟨0, 0, 0⟩, 5 / 2, 7, 98 / 100, 30⟩

/-- Spacecraft used by the claim C3 witness. -/
def craftBoundedW : Spacecraft :=
  ⟨⟨0, 0, 0⟩, ⟨1, 0, 0, 0⟩, ⟨0, 0, 0⟩, 1, 1, 1, 1⟩

/-- Craft for the claim C4 failing input: at `(100, 0, 0)` with identity
orientation, so its forward direction is `(0, 0, -1)`. -/
def cexAiCraft : AiCraft := ⟨⟨100, 0, 0⟩, ⟨1, 0, 0, 0⟩⟩

/-- Target for the claim C4 failing input: one unit straight ahead of
`cexAiCraft` at world position `(100, 0, -1)`, with authored bounding
radius 1. -/
def cexAiTarget : AiTarget := ⟨⟨100, 0, -1⟩, ⟨some 1, some 1⟩⟩

/-- Componentwise characterization of equality of `V3` values. -/
theorem V3.ext {α : Type} {a b : V3 α} (hx : a.x = b.x) (hy : a.y = b.y)
    (hz : a.z = b.z) : a = b := by
  cases a; cases b; cases hx; cases hy; cases hz; rfl

/-- Claim C9: for every collection of bodies and every `delta`,
`updateCelestials` with `isPaused = true` is a no-op — no body's orbital
or axial angle (at any nesting level) changes, because the function
returns the collection untouched. -/
theorem updateCelestials_paused_noop (celestialBodies : List CBody) (delta : ℚ) :
    updateCelestials celestialBodies delta true = celestialBodies := rfl

/-- Counterexample for claim C8: `updateCelestials` iterates over the
bodies and over each body's `moons` array but never recurses deeper.  In
`cexPlanet` the moon's own moon `cexGrandMoon` has orbital speed 1, so
with `delta = 1` the claim requires its orbital angle to become
`0 + 1 * 1 ≠ 0`; the code leaves it at `0`. -/
theorem updateCelestials_skips_nested_moons :
    ((((updateCelestials [cexPlanet] 1 false).head?.bind
          (fun b => b.moons.head?)).bind
        (fun m => m.moons.head?)).map CBody.pivotRotY) = some (some 0) ∧
      cexGrandMoon.speed = some 1 ∧ ((0 : ℚ) + 1 * 1 ≠ 0) :=
  ⟨rfl, rfl, by norm_num⟩

/-- Claim C8 (amended): when not paused, `updateCelestials` adds
`speed * delta` to the orbital angle and `axialSpeed * delta` to the
axial angle of every body in the collection and of each body's direct
moons; moons nested below the first level are returned unchanged (the
inner `m.moons` on the right-hand side). -/
theorem updateCelestials_advances_one_level (celestialBodies : List CBody) (delta : ℚ) :
    updateCelestials celestialBodies delta false =
      celestialBodies.map (fun b =>
        CBody.mk (orbUpdate delta b) b.speed (axUpdate delta b) b.axialSpeed
          (b.moons.map (fun m =>
            CBody.mk (orbUpdate delta m) m.speed (axUpdate delta m) m.axialSpeed
              m.moons))) := rfl

/-- One `updateTrajectoryLine` call keeps the history length within
`maxPoints` whenever it already was. -/
theorem updateTrajectoryLine_length_le (c : Option (V3 ℚ)) (pts : List (V3 ℚ))
    (maxPoints : ℕ) (h : pts.length ≤ maxPoints) :
    (updateTrajectoryLine c pts maxPoints).length ≤ maxPoints := by
  cases c with
  | none => exact h
  | some p =>
    show (if pts.head? = some p then pts else (p :: pts).take maxPoints).length ≤ maxPoints
    by_cases hd : pts.head? = some p
    · rw [if_pos hd]; exact h
    · rw [if_neg hd, List.length_take]; exact min_le_left _ _

/-- Claim C5: starting from a history of length at most `maxPoints`,
any sequence of `updateTrajectoryLine` calls with that same `maxPoints`
keeps the length at most `maxPoints`; and recording the same point 5
times with `maxPoints = 3` starting from an empty history yields history
length 1 (duplicate positions are suppressed). -/
theorem updateTrajectoryLine_length_bounded (init : List (V3 ℚ))
    (calls : List (Option (V3 ℚ))) (maxPoints : ℕ)
    (hinit : init.length ≤ maxPoints) :
    (calls.foldl (fun pts c => updateTrajectoryLine c pts maxPoints) init).length ≤
        maxPoints ∧
      ((List.replicate 5 (some (⟨1, 2, 3⟩ : V3 ℚ))).foldl
          (fun pts c => updateTrajectoryLine c pts 3) []).length = 1 := by
  refine ⟨?_, by decide⟩
  induction calls generalizing init with
  | nil => exact hinit
  | cons c rest ih =>
    rw [List.foldl_cons]
    exact ih _ (updateTrajectoryLine_length_le c init maxPoints hinit)

/-- Witness for claim C5 at the empty history, the 5-fold repeated
point, and `maxPoints = 3`. -/
theorem updateTrajectoryLine_length_bounded_witness :
    ([] : List (V3 ℚ)).length ≤ 3 ∧
      (((List.replicate 5 (some (⟨1, 2, 3⟩ : V3 ℚ))).foldl
            (fun pts c => updateTrajectoryLine c pts 3) []).length ≤ 3 ∧
        ((List.replicate 5 (some (⟨1, 2, 3⟩ : V3 ℚ))).foldl
            (fun pts c => updateTrajectoryLine c pts 3) []).length = 1) :=
  ⟨by decide,
    updateTrajectoryLine_length_bounded [] (List.replicate 5 (some ⟨1, 2, 3⟩)) 3
      (by decide)⟩

/-- Claim C10: when the history is non-empty and its newest entry equals
the current position, `updateTrajectoryLine` leaves the history entirely
unchanged — in particular the truncation to `maxPoints` is skipped, so a
history already longer than `maxPoints` is not trimmed by such a call. -/
theorem updateTrajectoryLine_duplicate_noop (p : V3 ℚ) (pts : List (V3 ℚ))
    (maxPoints : ℕ) (h : pts.head? = some p) :
    updateTrajectoryLine (some p) pts maxPoints = pts := by
  show (if pts.head? = some p then pts else (p :: pts).take maxPoints) = pts
  rw [if_pos h]

/-- Witness for claim C10: a 5-entry history whose newest entry equals
the current position is untouched even with `maxPoints = 3`. -/
theorem updateTrajectoryLine_duplicate_noop_witness :
    (List.replicate 5 (⟨0, 0, 0⟩ : V3 ℚ)).head? = some ⟨0, 0, 0⟩ ∧
      updateTrajectoryLine (some ⟨0, 0, 0⟩) (List.replicate 5 ⟨0, 0, 0⟩) 3 =
        List.replicate 5 ⟨0, 0, 0⟩ :=
  ⟨by decide,
    updateTrajectoryLine_duplicate_noop ⟨0, 0, 0⟩ (List.replicate 5 ⟨0, 0, 0⟩) 3
      (by decide)⟩

/-- Claim C7: for every prior control-input record, `updateAiPilot` with
`isAiActive = false`, or with the target absent, forces all three flags
to `false` and performs no steering computation. -/
theorem updateAiPilot_disengaged_clears_input (spacecraft : Option AiCraft)
    (targetObject : Option AiTarget) (inputState : InputState) (delta base : ℝ) :
    updateAiPilot spacecraft targetObject inputState delta false base =
        ⟨false, false, false⟩ ∧
      ∀ isAiActive : Bool,
        updateAiPilot spacecraft none inputState delta isAiActive base =
          ⟨false, false, false⟩ := by
  constructor
  · cases spacecraft <;> cases targetObject <;> rfl
  · intro isAiActive
    cases isAiActive <;> cases spacecraft <;> rfl

/-- Claim C2 (code bug): `objectRadius` does not fall back to the
constant 1.  On an absent mesh, and on a mesh with neither a bounding
sphere nor a scale, the middle operand `obj?.scale?.x * BASE_PLANET_RADIUS`
evaluates to `NaN`, which `?? 1` keeps (NaN is not nullish), so the
helper returns `NaN` — not a usable positive number. -/
theorem objectRadius_nan_on_missing (base : ℚ) :
    objectRadius (none : Option (MeshObj ℚ)) base = JSVal.nan ∧
      objectRadius (some (⟨none, none⟩ : MeshObj ℚ)) base = JSVal.nan ∧
      ∀ q : ℚ, (JSVal.nan : JSVal ℚ) ≠ JSVal.num q :=
  ⟨rfl, rfl, fun q h => by cases h⟩

/-- Witness for claim C2's theorem at `base = 5`. -/
theorem objectRadius_nan_on_missing_witness :
    objectRadius (none : Option (MeshObj ℚ)) 5 = JSVal.nan ∧
      objectRadius (some (⟨none, none⟩ : MeshObj ℚ)) 5 = JSVal.nan ∧
      ∀ q : ℚ, (JSVal.nan : JSVal ℚ) ≠ JSVal.num q :=
  objectRadius_nan_on_missing 5

/-- The squared length of a vector is nonnegative. -/
theorem lengthSq_nonneg (v : V3 ℝ) : 0 ≤ lengthSq v := by
  have hx := mul_self_nonneg v.x
  have hy := mul_self_nonneg v.y
  have hz := mul_self_nonneg v.z
  unfold lengthSq
  linarith

/-- Scaling a vector scales its length by the absolute scalar. -/
theorem norm3_smul (c : ℝ) (v : V3 ℝ) : norm3 (vsmul c v) = |c| * norm3 v := by
  unfold norm3 vsmul lengthSq
  rw [show c * v.x * (c * v.x) + c * v.y * (c * v.y) + c * v.z * (c * v.z) =
      c ^ 2 * (v.x * v.x + v.y * v.y + v.z * v.z) by ring]
  rw [Real.sqrt_mul (sq_nonneg c), Real.sqrt_sq_eq_abs]

/-- A bound on the squared length gives the same bound on the length. -/
theorem norm3_le_of_lengthSq_le {v : V3 ℝ} {m : ℝ} (hm : 0 ≤ m)
    (h : lengthSq v ≤ m * m) : norm3 v ≤ m := by
  unfold norm3
  calc Real.sqrt (lengthSq v) ≤ Real.sqrt (m * m) := Real.sqrt_le_sqrt h
    _ = m := Real.sqrt_mul_self hm

/-- After one `updateSpacecraft` step the speed is at most `maxSpeed`
(for a positive `maxSpeed`), whatever the incoming velocity was: the
drag-then-clamp pipeline caps the new velocity unconditionally. -/
theorem updateSpacecraft_velocity_le (s : Spacecraft) (i : InputState) (delta : ℝ)
    (hM : 0 < s.maxSpeed) :
    norm3 (updateSpacecraft s i delta).velocity ≤ s.maxSpeed := by
  unfold updateSpacecraft
  dsimp only
  set v2 : V3 ℝ :=
    vsmul s.drag
      (if i.thrust then
        vadd s.velocity
          (vsmul (s.thrustPower * delta)
            (applyQuaternion (qmul s.quat
              (qRotY ((if i.turnLeft then s.turnSpeed * delta else 0) +
                (if i.turnRight then -(s.turnSpeed * delta) else 0)))) ⟨0, 0, -1⟩))
      else s.velocity) with hv2
  by_cases h : lengthSq v2 > s.maxSpeed * s.maxSpeed
  · rw [if_pos h]
    have hls : 0 < lengthSq v2 := lt_trans (mul_pos hM hM) h
    have hl : 0 < norm3 v2 := Real.sqrt_pos.mpr hls
    unfold normalize3
    rw [if_neg (ne_of_gt hl), norm3_smul, norm3_smul]
    rw [abs_of_pos hM, abs_of_pos (by positivity : (0 : ℝ) < 1 / norm3 v2)]
    rw [one_div, inv_mul_cancel₀ (ne_of_gt hl), mul_one]
  · rw [if_neg h]
    push_neg at h
    exact norm3_le_of_lengthSq_le hM.le h

/-- Claim C3: for every spacecraft state with `maxSpeed > 0`, every
control input, and every `delta ≥ 0`, the speed immediately after
`updateSpacecraft` is at most `maxSpeed`, and this holds after any
(non-empty) sequence of steps. -/
theorem updateSpacecraft_speed_bounded (s : Spacecraft)
    (steps : List (InputState × ℝ)) (hM : 0 < s.maxSpeed) (hne : steps ≠ [])
    (hdt : ∀ p ∈ steps, (0 : ℝ) ≤ p.2) :
    norm3 ((steps.foldl (fun st p => updateSpacecraft st p.1 p.2) s).velocity) ≤
      s.maxSpeed := by
  induction steps generalizing s with
  | nil => exact absurd rfl hne
  | cons p rest ih =>
    rw [List.foldl_cons]
    rcases eq_or_ne rest [] with h | h
    · subst h
      exact updateSpacecraft_velocity_le s p.1 p.2 hM
    · exact ih (updateSpacecraft s p.1 p.2) hM h
        (fun q hq => hdt q (List.mem_cons_of_mem _ hq))

/-- Witness for claim C3: a single thrusting step from rest with
`maxSpeed = 1` and `delta = 1`. -/
theorem updateSpacecraft_speed_bounded_witness :
    (0 : ℝ) < craftBoundedW.maxSpeed ∧
      ([((⟨true, false, false⟩ : InputState), (1 : ℝ))] ≠ []) ∧
      (∀ p ∈ [((⟨true, false, false⟩ : InputState), (1 : ℝ))], (0 : ℝ) ≤ p.2) ∧
      norm3 (([((⟨true, false, false⟩ : InputState), (1 : ℝ))].foldl
          (fun st p => updateSpacecraft st p.1 p.2) craftBoundedW).velocity) ≤
        craftBoundedW.maxSpeed :=
  ⟨by norm_num [craftBoundedW], by simp,
    fun p hp => by rw [List.mem_singleton] at hp; rw [hp]; norm_num,
    updateSpacecraft_speed_bounded craftBoundedW _ (by norm_num [craftBoundedW])
      (by simp) (fun p hp => by rw [List.mem_singleton] at hp; rw [hp]; norm_num)⟩



/-- Consistency of the two transcriptions of a three.js Y-rotation: the
quaternion built by `setFromAxisAngle((0,1,0), θ)` rotates vectors by
exactly the `makeRotationY(θ)` matrix. -/
theorem applyQuaternion_qRotY (θ : ℝ) (v : V3 ℝ) :
    applyQuaternion (qRotY θ) v = rotateY θ v := by
  have hs : Real.sin θ = 2 * Real.sin (θ / 2) * Real.cos (θ / 2) := by
    have h := Real.sin_two_mul (θ / 2)
    rw [show 2 * (θ / 2) = θ by ring] at h
    exact h
  have hc : Real.cos θ = 1 - 2 * Real.sin (θ / 2) ^ 2 := by
    have h1 := Real.cos_two_mul (θ / 2)
    rw [show 2 * (θ / 2) = θ by ring] at h1
    have h2 := Real.sin_sq_add_cos_sq (θ / 2)
    linarith
  unfold applyQuaternion qRotY rotateY vadd vsmul vcross
  dsimp only
  apply V3.ext <;> dsimp only <;> (try rw [hs, hc]) <;> ring

/-- Claim C1 (code bug): at `timeAhead = 0` the predictor does not return
the body's current derived world position.  For the first-tier body
`cexOrbitBody` (pivot at the origin, orbital angle `π/2`, distance 10)
`calculateFuturePosition` yields `(0, 0, 10)` — the code's Z term is
`+sin(angle) * distance` — while the mesh world position composed
through the pivot's Y rotation is `(0, 0, -10)`. -/
theorem calculateFuturePosition_zero_mismatch :
    calculateFuturePosition (some cexOrbitBody) 0 = ⟨0, 0, 10⟩ ∧
      meshWorldPosition ⟨Real.pi / 2, ⟨0, 0, 0⟩⟩ ⟨10⟩ = ⟨0, 0, -10⟩ ∧
      ((⟨0, 0, 10⟩ : V3 ℝ) ≠ ⟨0, 0, -10⟩) := by
  refine ⟨?_, ?_, ?_⟩
  · show (⟨0 + Real.cos (Real.pi / 2 + 0 * 0) * 10, 0,
        0 + Real.sin (Real.pi / 2 + 0 * 0) * 10⟩ : V3 ℝ) = ⟨0, 0, 10⟩
    apply V3.ext <;> dsimp only <;>
      norm_num [Real.cos_pi_div_two, Real.sin_pi_div_two]
  · unfold meshWorldPosition rotateY vadd
    apply V3.ext <;> dsimp only <;>
      norm_num [Real.cos_pi_div_two, Real.sin_pi_div_two]
  · intro h
    have hz := congrArg V3.z h
    dsimp only at hz
    norm_num at hz

/-- Claim C4 (code bug): in the facing branch the code's
`distanceToTarget` is not the distance to the target.  `targetPos`
aliases the scratch vector that `crossVectors` overwrites with
`shipForward × targetDirection` before `distanceTo` runs.  For the craft
at `(100, 0, 0)` facing a target 1 unit ahead with radius 1, the true
distance to the target is `1`, which does not exceed `2.0 * 1`, so the
claim requires `thrust = false`; the code compares against
`|shipPos - (forward × targetDirection)| = |(100,0,0) - (0,0,0)| = 100`
and asserts thrust — the close-approach deadband never engages. -/
theorem updateAiPilot_thrust_distance_clobbered :
    (updateAiPilot (some cexAiCraft) (some cexAiTarget) ⟨false, false, false⟩ 1 true
        2).thrust = true ∧
      objectRadius (some cexAiTarget.mesh) (2 : ℝ) = JSVal.num 1 ∧
      dist3 cexAiCraft.pos cexAiTarget.worldPos = 1 ∧
      ¬(dist3 cexAiCraft.pos cexAiTarget.worldPos > 2 * 1) := by
  have hdist : dist3 cexAiCraft.pos cexAiTarget.worldPos = 1 := by
    unfold dist3 norm3
    rw [show vsub cexAiCraft.pos cexAiTarget.worldPos = (⟨0, 0, 1⟩ : V3 ℝ) from by
      apply V3.ext <;> norm_num [cexAiCraft, cexAiTarget, vsub]]
    rw [show lengthSq (⟨0, 0, 1⟩ : V3 ℝ) = 1 from by norm_num [lengthSq]]
    exact Real.sqrt_one
  refine ⟨?_, rfl, hdist, by rw [hdist]; norm_num⟩
  have hfwd : applyQuaternion cexAiCraft.quat ⟨0, 0, -1⟩ = (⟨0, 0, -1⟩ : V3 ℝ) := by
    apply V3.ext <;> norm_num [cexAiCraft, applyQuaternion, vcross, vsmul, vadd]
  have hsub : vsub cexAiTarget.worldPos cexAiCraft.pos = (⟨0, 0, -1⟩ : V3 ℝ) := by
    apply V3.ext <;> norm_num [cexAiTarget, cexAiCraft, vsub]
  have hnorm : norm3 (⟨0, 0, -1⟩ : V3 ℝ) = 1 := by
    unfold norm3
    rw [show lengthSq (⟨0, 0, -1⟩ : V3 ℝ) = 1 from by norm_num [lengthSq]]
    exact Real.sqrt_one
  have hdir : normalize3 (vsub cexAiTarget.worldPos cexAiCraft.pos) =
      (⟨0, 0, -1⟩ : V3 ℝ) := by
    rw [hsub]
    unfold normalize3
    rw [hnorm, if_neg (by norm_num : ¬(1 : ℝ) = 0)]
    apply V3.ext <;> norm_num [vsmul]
  have hangle : angleTo (⟨0, 0, -1⟩ : V3 ℝ) ⟨0, 0, -1⟩ = 0 := by
    have hls : lengthSq (⟨0, 0, -1⟩ : V3 ℝ) = 1 := by norm_num [lengthSq]
    have hd : vdot (⟨0, 0, -1⟩ : V3 ℝ) ⟨0, 0, -1⟩ = 1 := by norm_num [vdot]
    unfold angleTo
    rw [hls, hd, mul_one, Real.sqrt_one, one_div_one, min_self,
      max_eq_right (by norm_num : (-1 : ℝ) ≤ 1), Real.arccos_one]
  have hcross : vcross (⟨0, 0, -1⟩ : V3 ℝ) ⟨0, 0, -1⟩ = ⟨0, 0, 0⟩ := by
    apply V3.ext <;> norm_num [vcross]
  have hd100 : dist3 cexAiCraft.pos (⟨0, 0, 0⟩ : V3 ℝ) = 100 := by
    unfold dist3 norm3
    rw [show vsub cexAiCraft.pos (⟨0, 0, 0⟩ : V3 ℝ) = ⟨100, 0, 0⟩ from by
      apply V3.ext <;> norm_num [cexAiCraft, vsub]]
    rw [show lengthSq (⟨100, 0, 0⟩ : V3 ℝ) = (100 : ℝ) ^ 2 from by norm_num [lengthSq]]
    exact Real.sqrt_sq (by norm_num)
  have key : updateAiPilot (some cexAiCraft) (some cexAiTarget) ⟨false, false, false⟩ 1
      true 2 =
      (if angleTo (applyQuaternion cexAiCraft.quat ⟨0, 0, -1⟩)
            (normalize3 (vsub cexAiTarget.worldPos cexAiCraft.pos)) > degToRad 5 then
        (if Real.sign (vdot
              (vcross (applyQuaternion cexAiCraft.quat ⟨0, 0, -1⟩)
                (normalize3 (vsub cexAiTarget.worldPos cexAiCraft.pos)))
              (applyQuaternion cexAiCraft.quat ⟨0, 1, 0⟩)) > 0 then
          (⟨false, true, false⟩ : InputState)
        else ⟨false, false, true⟩)
      else
        ⟨if jsGT
              (JSVal.num (dist3 cexAiCraft.pos
                (vcross (applyQuaternion cexAiCraft.quat ⟨0, 0, -1⟩)
                  (normalize3 (vsub cexAiTarget.worldPos cexAiCraft.pos)))))
              (jsMul (objectRadius (some cexAiTarget.mesh) 2) (JSVal.num 2)) then true
          else false,
          false, false⟩) := rfl
  rw [key, hfwd, hdir, hangle]
  rw [if_neg (not_lt.mpr (by unfold degToRad; positivity) : ¬((0 : ℝ) > degToRad 5))]
  rw [hcross, hd100]
  rw [show objectRadius (some cexAiTarget.mesh) (2 : ℝ) = JSVal.num 1 from rfl]
  rw [show jsMul (JSVal.num (1 : ℝ)) (JSVal.num 2) = JSVal.num (1 * 2) from rfl]
  rw [if_pos (show jsGT (JSVal.num (100 : ℝ)) (JSVal.num (1 * 2)) from by
    show ((1 : ℝ) * 2) < 100
    norm_num)]

/-- Claim C6: `updateSpacecraft` is exactly the composition of its
sub-steps in source order — turn, thrust, drag, clamp, integrate — and
on the concrete scenario (craft at rest at the origin heading along
`-Z`, `thrustPower 7.0`, `drag 0.98`, `maxSpeed 30`, one thrusting step
with `delta = 1`) it yields velocity `(0, 0, -6.86)` of magnitude
`7.0 * 0.98 = 6.86 = 343/50` and moves the position by `velocity * delta`
along `-Z`. -/
theorem updateSpacecraft_order_and_thrust_tick :
    (∀ (s : Spacecraft) (i : InputState) (delta : ℝ),
        updateSpacecraft s i delta =
          integrateStep delta
            (clampStep (dragStep (thrustStep i delta (turnStep i delta s))))) ∧
      updateSpacecraft craftScenario ⟨true, false, false⟩ 1 =
        ⟨⟨0, 0, -(343 / 50)⟩, ⟨1, 0, 0, 0⟩, ⟨0, 0, -(343 / 50)⟩, 5 / 2, 7,
          98 / 100, 30⟩ ∧
      norm3 ⟨0, 0, -(343 / 50)⟩ = 343 / 50 := by
  refine ⟨fun s i delta => rfl, ?_, ?_⟩
  · unfold updateSpacecraft craftScenario
    norm_num [qRotY, qmul, applyQuaternion, vadd, vsmul, vcross, lengthSq,
      normalize3, Real.cos_zero, Real.sin_zero]
  · show Real.sqrt (lengthSq ⟨0, 0, -(343 / 50)⟩) = 343 / 50
    rw [show lengthSq (⟨0, 0, -(343 / 50)⟩ : V3 ℝ) = (343 / 50) ^ 2 by
      norm_num [lengthSq]]
    rw [Real.sqrt_sq (by norm_num : (0 : ℝ) ≤ 343 / 50)]
